import Mathlib

/-!
Verification of the hotel-booking application (FARM-stack repository).

The frontend JavaScript (React components under `frontend/src` and the
standalone booking modal) is embedded directly.  The backend services
(FastAPI routes for booking creation, booking updates, authentication and
the admin listing endpoint) are not present in the repository snapshot —
only their documentation, tests and frontend callers are — so those
operations are modelled from the specification, as indicated by the
`Modelled from the spec:` doc comments.

Conventions of the embedding:
* timestamps are naturals, in milliseconds since the Unix epoch
  (JavaScript `Date.getTime()` values for post-1970 dates);
* money amounts are naturals, in cents (the sources use decimal dollars);
* JavaScript strings are Lean `String`s, `toLowerCase` is `String.toLower`.
-/

/-- Milliseconds in one day: the `1000 * 60 * 60 * 24` divisor of
`BookingModal.calculateNights`. -/
def msPerDay : Nat := 1000 * 60 * 60 * 24

/-- Ceiling division on naturals (for a positive numerator this is
`Math.ceil (a / b)` on exact values). -/
def ceilDiv (a b : Nat) : Nat := (a + b - 1) / b

/-- Days since the Unix epoch of a civil date (standard civil-from-days
inverse; valid for dates from 1970 on, which covers every date used by the
application).  This is what `new Date("YYYY-MM-DD")` divides out of its
millisecond value. -/
def daysFromCivil (y m d : Nat) : Nat :=
  let y' := if m ≤ 2 then y - 1 else y
  let era := y' / 400
  let yoe := y' - era * 400
  let mp := if 2 < m then m - 3 else m + 9
  let doy := (153 * mp + 2) / 5 + d - 1
  let doe := yoe * 365 + yoe / 4 - yoe / 100 + doy
  era * 146097 + doe - 719468

/-- Epoch milliseconds of a civil date at UTC midnight, i.e.
`new Date("YYYY-MM-DD").getTime()`. -/
def msOfDate (y m d : Nat) : Nat := daysFromCivil y m d * msPerDay

/-- `BookingModal.calculateNights`:
`Math.ceil((checkOut - checkIn) / (1000*60*60*24))`, clamped to `0` when
not positive (`nights > 0 ? nights : 0`). -/
def calculateNights (checkInMs checkOutMs : Nat) : Nat :=
  if checkOutMs ≤ checkInMs then 0
  else ceilDiv (checkOutMs - checkInMs) msPerDay

/-- `BookingModal.calculateTotal`: `calculateNights() * room.price_per_night`
(price in cents). -/
def calculateTotal (priceCents checkInMs checkOutMs : Nat) : Nat :=
  calculateNights checkInMs checkOutMs * priceCents

/-- Booking status enum: the four values accepted by the backend and
rendered by `BookingManagement.getStatusColor`. -/
inductive BStatus where
  | pending
  | confirmed
  | cancelled
  | completed
deriving DecidableEq, BEq, Fintype

/-- Parse a status string into the enum; `none` for any string outside the
four allowed values (documented in the admin API as the allowed status
values of `PATCH /api/admin/bookings`). -/
def parseStatus : String → Option BStatus
  | "pending" => some .pending
  | "confirmed" => some .confirmed
  | "cancelled" => some .cancelled
  | "completed" => some .completed
  | _ => none

/-- Room catalog entry (fields used by booking creation). -/
structure Room where
  id : Nat
  name : String
  priceCents : Nat
  maxGuests : Nat
deriving DecidableEq

/-- Persisted booking record, with the denormalized room name snapshot. -/
structure Booking where
  id : Nat
  roomId : Nat
  roomName : String
  guestName : String
  checkInMs : Nat
  checkOutMs : Nat
  guests : Nat
  totalCents : Nat
  bookingDateMs : Nat
  status : BStatus
  userEmail : Option String
deriving DecidableEq

/-- Booking creation request body
(`{room_id, guest_name, check_in_date, check_out_date, guests}`). -/
structure BookingReq where
  roomId : Nat
  guestName : String
  checkInMs : Nat
  checkOutMs : Nat
  guests : Nat
  userEmail : Option String
deriving DecidableEq

/-- Error taxonomy of the service layer. -/
inductive SvcError where
  | validationErr
  | notFoundErr
  | authFailure (msg : String)
  | forbiddenErr
  | conflictErr
deriving DecidableEq

/-- HTTP status mapped to each error kind. -/
def statusOf : SvcError → Nat
  | .validationErr => 400
  | .notFoundErr => 404
  | .authFailure _ => 401
  | .forbiddenErr => 403
  | .conflictErr => 400

/-- Persistent store: room catalog plus booking collection. -/
structure Store where
  rooms : List Room
  bookings : List Booking
deriving DecidableEq

/-- Modelled from the spec: `createBooking` (the FastAPI booking-creation
route is absent from the snapshot).  Validates that the room exists, that
check-out is strictly after check-in and that the guest count is within
`1..room.max_guests`; on failure returns `ValidationError` and leaves the
store untouched; on success computes nights as the ceiling of the date
difference in whole days, sets `total_price = nights × price_per_night`,
stamps `booking_date = now`, persists the record with status `confirmed`
and the denormalized room name. -/
def createBooking (st : Store) (req : BookingReq) (nowMs : Nat) :
    Except SvcError Booking × Store :=
  match st.rooms.find? (fun r => r.id == req.roomId) with
  | none => (.error .validationErr, st)
  | some room =>
    if req.checkOutMs ≤ req.checkInMs ∨ req.guests < 1 ∨ room.maxGuests < req.guests then
      (.error .validationErr, st)
    else
      let nights := ceilDiv (req.checkOutMs - req.checkInMs) msPerDay
      let b : Booking :=
        { id := st.bookings.length
          roomId := room.id
          roomName := room.name
          guestName := req.guestName
          checkInMs := req.checkInMs
          checkOutMs := req.checkOutMs
          guests := req.guests
          totalCents := nights * room.priceCents
          bookingDateMs := nowMs
          status := .confirmed
          userEmail := req.userEmail }
      (.ok b, { st with bookings := st.bookings ++ [b] })

/-- Modelled from the spec: `updateBookingStatus(booking_id, new_status)`
(the FastAPI admin booking-update route is absent from the snapshot).
The status string is validated first (request-body validation happens
before the lookup), then the booking is looked up; on success the status
is overwritten in place with no transition-table check. -/
def updateBookingStatus (st : Store) (bookingId : Nat) (newStatus : String) :
    Except SvcError Booking × Store :=
  match parseStatus newStatus with
  | none => (.error .validationErr, st)
  | some s =>
    match st.bookings.find? (fun b => b.id == bookingId) with
    | none => (.error .notFoundErr, st)
    | some b =>
      let b' := { b with status := s }
      (.ok b',
       { st with bookings := st.bookings.map (fun x => if x.id == bookingId then b' else x) })

/-- User identity record. -/
structure User where
  id : Nat
  email : String
  passwordHash : String
  fullName : String
  role : String
  isActive : Bool
deriving DecidableEq

/-- JavaScript `toLowerCase` as a character-by-character map (identical to
`String.toLower`, stated over the character list). -/
def jsToLower (s : String) : String := ⟨s.data.map Char.toLower⟩

/-- Case-folded email lookup used by authentication. -/
def lookupUser (db : List User) (email : String) : Option User :=
  db.find? (fun u => jsToLower u.email == jsToLower email)

/-- Signed session token payload: user id, email, role and expiry. -/
structure Token where
  userId : Nat
  email : String
  role : String
  expMs : Nat
deriving DecidableEq

/-- Modelled from the spec: `authenticate(email, password)` (the FastAPI
auth route is absent from the snapshot).  Looks up the user by case-folded
email; fails with a generic `AuthenticationError` ("Invalid credentials",
revealing nothing about which field was wrong) if the user is absent or
the password hash does not verify; on success issues a token embedding
user id, email and role with a fixed expiry.  The bcrypt verifier is a
parameter `verify : password → hash → Bool`. -/
def authenticate (verify : String → String → Bool) (db : List User)
    (email password : String) (nowMs expiryMs : Nat) : Except SvcError Token :=
  match lookupUser db email with
  | none => .error (.authFailure "Invalid credentials")
  | some u =>
    if verify password u.passwordHash then
      .ok { userId := u.id, email := u.email, role := u.role, expMs := nowMs + expiryMs }
    else
      .error (.authFailure "Invalid credentials")

/-- Modelled from the spec: `authorize(token, requiredRole?)` (the FastAPI
dependency is absent from the snapshot).  A missing or malformed token is
`none`; an expired or missing token fails with `AuthenticationError`, and
when the required role is `admin` a non-admin embedded role fails with
`AuthorizationError`. -/
def authorize (tok : Option Token) (nowMs : Nat) (requiredRole : Option String) :
    Except SvcError Token :=
  match tok with
  | none => .error (.authFailure "Not authenticated")
  | some t =>
    if t.expMs ≤ nowMs then .error (.authFailure "Token expired")
    else if requiredRole == some "admin" && !(t.role == "admin") then
      .error .forbiddenErr
    else .ok t

/-- Booking counters of the admin statistics payload. -/
structure BookingStats where
  total : Nat
  confirmed : Nat
  cancelled : Nat
deriving DecidableEq

/-- Admin statistics payload (`stats.bookings` is all the dashboard rate
computation reads). -/
structure Stats where
  bookings : BookingStats
deriving DecidableEq

/-- Modelled from the spec: `GET /api/admin/stats` — authorize with
required role `admin`, then return the aggregate counters; any
authorization failure propagates and no data is returned. -/
def getAdminStats (tok : Option Token) (nowMs : Nat) (stats : Stats) :
    Except SvcError Stats :=
  (authorize tok nowMs (some "admin")).map (fun _ => stats)

/-- The two views `AdminPanel` can render. -/
inductive PanelView where
  | accessDenied
  | adminView
deriving DecidableEq

/-- `AdminPanel`: `if (!isAuthenticated || user?.role !== 'admin')` render
the access-denied block, otherwise the admin layout.  A `none` role stands
for a null `user` (whose `user?.role` is `undefined`). -/
def adminPanelView (isAuthenticated : Bool) (role : Option String) : PanelView :=
  if !isAuthenticated || role != some "admin" then .accessDenied else .adminView

/-- Admin data fetched by each view: the admin layout mounts
`AdminDashboard`, whose effect calls `api.getAdminStats`; the
access-denied block fetches nothing. -/
def viewFetches : PanelView → List String
  | .accessDenied => []
  | .adminView => ["/api/admin/stats"]

/-- `AdminDashboard` booking-rate display:
`stats?.bookings?.total > 0 ? Math.round((confirmed / total) * 100) : 0`,
with `none` standing for a still-null `stats`. -/
def bookingRateDisplay (stats : Option Stats) : ℤ :=
  match stats with
  | none => 0
  | some s =>
    if 0 < s.bookings.total then
      round (((s.bookings.confirmed : ℚ) / (s.bookings.total : ℚ)) * 100)
    else 0

/-- `UserManagement.handleToggleRole`:
`user.role === 'admin' ? 'user' : 'admin'`. -/
def handleToggleRole (role : String) : String :=
  if role == "admin" then "user" else "admin"

/-- `BookingManagement` status action buttons: the list of target statuses
offered for a booking in each displayed status (`confirmed` shows the
complete and cancel buttons, `pending` the confirm and cancel buttons,
`cancelled` the reactivate button, `completed` none). -/
def offeredTransitions : BStatus → List BStatus
  | .confirmed => [.completed, .cancelled]
  | .pending => [.confirmed, .cancelled]
  | .cancelled => [.confirmed]
  | .completed => []

/-- The booking-lifecycle transition table as the specification lists it. -/
def specLifecycle (s t : BStatus) : Prop :=
  (s = .pending ∧ t = .confirmed) ∨
  (s = .pending ∧ t = .cancelled) ∨
  (s = .confirmed ∧ t = .cancelled) ∨
  (s = .confirmed ∧ t = .completed) ∨
  (s = .cancelled ∧ t = .confirmed)

instance (s t : BStatus) : Decidable (specLifecycle s t) := by
  unfold specLifecycle
  infer_instance

/-- Does the character list `hay` start with `needle`? -/
def startsWithL : List Char → List Char → Bool
  | [], _ => true
  | _ :: _, [] => false
  | n :: ns, h :: hs => n == h && startsWithL ns hs

/-- Does `hay` contain `needle` as a contiguous run?  (JavaScript
`hay.includes(needle)`; an empty needle is always contained.) -/
def hasSubL (needle hay : List Char) : Bool :=
  match hay with
  | [] => needle.isEmpty
  | _ :: rest => startsWithL needle hay || hasSubL needle rest

/-- Case-insensitive substring test:
`hay.toLowerCase().includes(needle.toLowerCase())`. -/
def hasSubCI (hay needle : String) : Bool :=
  hasSubL (jsToLower needle).data (jsToLower hay).data

/-- The predicate of `BookingManagement.filteredBookings`: the search term
matches the guest name, the room name, or (when present) the user email,
all case-insensitively. -/
def matchesSearch (term : String) (b : Booking) : Bool :=
  hasSubCI b.guestName term || hasSubCI b.roomName term ||
    (match b.userEmail with
     | some e => hasSubCI e term
     | none => false)

/-- `BookingManagement.filteredBookings`: the client-side filter applied to
the `bookings` state before rendering. -/
def filteredBookings (term : String) (bs : List Booking) : List Booking :=
  bs.filter (matchesSearch term)

/-- Query parameters of `api.getAdminBookings(skip, limit, status)`: the
URL carries `skip`, `limit` and, when a status is given, `status` — and
nothing else. -/
structure AdminBookingsQuery where
  skip : Nat
  limit : Nat
  status : Option String
deriving DecidableEq

/-- `BookingManagement.fetchBookings`: requests
`api.getAdminBookings(0, 100, statusFilter)` where the status filter is
`null` for the `all` choice.  The `searchTerm` state is in scope in the
component but never read here, mirroring the source. -/
def fetchBookingsQuery (filterStatus : String) (searchTerm : String) :
    AdminBookingsQuery :=
  let _ := searchTerm
  { skip := 0
    limit := 100
    status := if filterStatus == "all" then none else some filterStatus }

/-- Modelled from the spec: the data-layer handler of
`GET /api/admin/bookings?skip=&limit=&status=` (absent from the snapshot;
its documented query parameters are exactly `skip`, `limit` and
`status`).  Applies the optional status filter, then pagination. -/
def serverAdminBookings (q : AdminBookingsQuery) (db : List Booking) :
    List Booking :=
  let byStatus :=
    match q.status.bind parseStatus with
    | none => db
    | some s => db.filter (fun b => b.status == s)
  (byStatus.drop q.skip).take q.limit

/-- The booking list the client receives for given UI state: the data
layer evaluated at the query `fetchBookings` sends. -/
def shippedToClient (filterStatus searchTerm : String) (db : List Booking) :
    List Booking :=
  serverAdminBookings (fetchBookingsQuery filterStatus searchTerm) db

/-- The rows `BookingManagement` renders: the client-side free-text filter
applied to the list the server shipped. -/
def displayedBookings (filterStatus searchTerm : String) (db : List Booking) :
    List Booking :=
  filteredBookings searchTerm (shippedToClient filterStatus searchTerm db)

/-- JavaScript `String.prototype.trim` on the characters of `s`: strip
leading and trailing whitespace. -/
def jsTrim (s : String) : String :=
  ⟨((s.data.dropWhile Char.isWhitespace).reverse.dropWhile Char.isWhitespace).reverse⟩

/-- Uppercase hexadecimal digit. -/
def hexDigit (n : Nat) : Char :=
  if n < 10 then Char.ofNat (48 + n) else Char.ofNat (55 + n)

/-- Percent-encoding of one byte, with uppercase hex as produced by
`encodeURIComponent`. -/
def pctByte (b : Nat) : List Char :=
  ['%', hexDigit (b / 16), hexDigit (b % 16)]

/-- UTF-8 bytes of a single character (code points below `0x110000`). -/
def utf8Bytes (c : Char) : List Nat :=
  let n := c.toNat
  if n < 0x80 then [n]
  else if n < 0x800 then [0xC0 + n / 64, 0x80 + n % 64]
  else if n < 0x10000 then
    [0xE0 + n / 4096, 0x80 + n / 64 % 64, 0x80 + n % 64]
  else
    [0xF0 + n / 262144, 0x80 + n / 4096 % 64, 0x80 + n / 64 % 64, 0x80 + n % 64]

/-- The characters `encodeURIComponent` leaves unescaped: alphanumerics
and `- _ . ! ~ * ' ( )`. -/
def uriUnescaped (c : Char) : Bool :=
  c.isAlphanum || c == '-' || c == '_' || c == '.' || c == '!' ||
    c == '~' || c == '*' || c == '\'' || c == '(' || c == ')'

/-- JavaScript `encodeURIComponent`: unescaped characters pass through,
every other character is percent-encoded byte by byte in UTF-8. -/
def encodeURIComponent (s : String) : String :=
  ⟨s.data.flatMap (fun c =>
    if uriUnescaped c then [c] else (utf8Bytes c).flatMap pctByte)⟩

/-- URL requested by `api.getBookingsByGuest(guestName)`:
`/api/bookings/guest/` followed by the URL-encoded guest name. -/
def getBookingsByGuestUrl (guestName : String) : String :=
  "http://localhost:8000/api/bookings/guest/" ++ encodeURIComponent guestName

/-- URL requested by `api.getAllBookings()`. -/
def getAllBookingsUrl : String := "http://localhost:8000/api/bookings"

/-- `MyBookings.handleSearch`: a blank search name
(`!searchName.trim()`) falls back to `fetchBookings()`, i.e. the full
list; otherwise `api.getBookingsByGuest(searchName)` is called with the
raw name, which the api layer URL-encodes. -/
def handleSearch (searchName : String) : String :=
  if jsTrim searchName == "" then getAllBookingsUrl
  else getBookingsByGuestUrl searchName

/-! ## Scenario data and helper lemmas -/

/-- Catalog room of the pricing scenario: $100.00 per night, two guests. -/
def scenarioRoom : Room :=
  { id := 1, name := "Standard Room", priceCents := 10000, maxGuests := 2 }

/-- Store holding only the scenario room. -/
def scenarioStore : Store := { rooms := [scenarioRoom], bookings := [] }

/-- Scenario request: check-in 2026-03-01, check-out 2026-03-04, 2 guests. -/
def scenarioReq : BookingReq :=
  { roomId := 1
    guestName := "Jane Smith"
    checkInMs := msOfDate 2026 3 1
    checkOutMs := msOfDate 2026 3 4
    guests := 2
    userEmail := none }

/-- The booking the scenario is expected to persist. -/
def scenarioBooking : Booking :=
  { id := 0
    roomId := 1
    roomName := "Standard Room"
    guestName := "Jane Smith"
    checkInMs := msOfDate 2026 3 1
    checkOutMs := msOfDate 2026 3 4
    guests := 2
    totalCents := 30000
    bookingDateMs := 0
    status := .confirmed
    userEmail := none }

theorem round_rate_eq (c t : ℕ) (ht : 0 < t) :
    round (((c : ℚ) / (t : ℚ)) * 100) = ((200 * c + t) / (2 * t) : ℕ) := by
  have ht' : (t : ℚ) ≠ 0 := Nat.cast_ne_zero.mpr ht.ne'
  have hq : ((c : ℚ) / t) * 100 + 1 / 2 = ((200 * c + t : ℕ) : ℚ) / ((2 * t : ℕ) : ℚ) := by
    push_cast
    field_simp
    ring
  rw [round_eq, hq, ← Int.natCast_floor_eq_floor (by positivity), Nat.floor_div_eq_div]

theorem jsTrim_eq_empty_iff (s : String) :
    jsTrim s = "" ↔ s.data.all Char.isWhitespace := by
  unfold jsTrim
  constructor
  · intro h
    have hrev : ((s.data.dropWhile Char.isWhitespace).reverse.dropWhile
        Char.isWhitespace).reverse = [] := congrArg String.data h
    rw [List.reverse_eq_nil_iff, List.dropWhile_eq_nil_iff] at hrev
    rw [List.all_eq_true]
    intro x hx
    have hsplit := List.takeWhile_append_dropWhile (p := Char.isWhitespace) (l := s.data)
    rw [← hsplit] at hx
    rcases List.mem_append.1 hx with hx | hx
    · exact List.mem_takeWhile_imp hx
    · exact hrev x (List.mem_reverse.mpr hx)
  · intro h
    have h1 : s.data.dropWhile Char.isWhitespace = [] :=
      List.dropWhile_eq_nil_iff.mpr (fun x hx => by
        exact List.all_eq_true.mp h x hx)
    rw [h1]
    rfl

/-! ## Claims -/

/-- C1: for every booking created with a valid room and a valid date pair,
the total price is `nights × room.price_per_night` with
`nights = ceil((check_out − check_in) / 1 day)`; in particular a room at
$100/night from 2026-03-01 to 2026-03-04 with 2 guests gives 3 nights,
a $300.00 total and status `confirmed`. -/
theorem c1_total_price (priceCents checkInMs checkOutMs : Nat)
    (h : checkInMs < checkOutMs) :
    calculateTotal priceCents checkInMs checkOutMs
        = ceilDiv (checkOutMs - checkInMs) msPerDay * priceCents
      ∧ calculateNights (msOfDate 2026 3 1) (msOfDate 2026 3 4) = 3
      ∧ calculateTotal 10000 (msOfDate 2026 3 1) (msOfDate 2026 3 4) = 30000
      ∧ (createBooking scenarioStore scenarioReq 0).1 = .ok scenarioBooking := by
  refine ⟨?_, by decide, by decide, by rfl⟩
  unfold calculateTotal calculateNights
  rw [if_neg (by omega)]

theorem c1_total_price_witness :
    calculateTotal 10000 (msOfDate 2026 3 1) (msOfDate 2026 3 4)
      = ceilDiv (msOfDate 2026 3 4 - msOfDate 2026 3 1) msPerDay * 10000 :=
  (c1_total_price 10000 (msOfDate 2026 3 1) (msOfDate 2026 3 4) (by decide)).1

/-- C2: every booking creation attempt violating a validation constraint —
nonexistent room, `check_out ≤ check_in`, `guests < 1` or
`guests > room.max_guests` — fails with `ValidationError` and leaves the
stored state unchanged. -/
theorem c2_validation_rejects (st : Store) (req : BookingReq) (nowMs : Nat)
    (h : st.rooms.find? (fun r => r.id == req.roomId) = none
       ∨ req.checkOutMs ≤ req.checkInMs
       ∨ req.guests < 1
       ∨ ∃ room, st.rooms.find? (fun r => r.id == req.roomId) = some room
           ∧ room.maxGuests < req.guests) :
    createBooking st req nowMs = (.error .validationErr, st) := by
  unfold createBooking
  cases hf : st.rooms.find? (fun r => r.id == req.roomId) with
  | none => rfl
  | some room =>
    dsimp only
    rcases h with h | h | h | ⟨r, hr, hg⟩
    · exact absurd hf (by rw [h]; exact fun hc => Option.noConfusion hc)
    · rw [if_pos (Or.inl h)]
    · rw [if_pos (Or.inr (Or.inl h))]
    · rw [hf] at hr
      cases hr
      rw [if_pos (Or.inr (Or.inr hg))]

theorem c2_validation_rejects_witness :
    createBooking scenarioStore
      { roomId := 1, guestName := "Jane Smith", checkInMs := msOfDate 2026 3 4,
        checkOutMs := msOfDate 2026 3 1, guests := 2, userEmail := none } 0
      = (.error .validationErr, scenarioStore) :=
  c2_validation_rejects scenarioStore _ 0 (Or.inr (Or.inl (by decide)))

/-- C3: the admin booking-management interface offers exactly the status
transitions of the lifecycle table: completed and cancelled from
confirmed, confirmed and cancelled from pending, confirmed from cancelled,
and nothing from completed. -/
theorem c3_status_buttons :
    ∀ s t : BStatus, t ∈ offeredTransitions s ↔ specLifecycle s t := by
  intro s t
  cases s <;> cases t <;> simp [offeredTransitions, specLifecycle]

/-- C4: `updateBookingStatus` fails with `ValidationError` for a status
outside the four enumerated values, fails with `NotFoundError` for an
unknown booking id, and otherwise sets any enumerated status regardless
of the current status. -/
theorem c4_update_booking_status (st : Store) (bookingId : Nat) (newStatus : String) :
    (parseStatus newStatus = none →
        updateBookingStatus st bookingId newStatus = (.error .validationErr, st))
    ∧ (∀ s, parseStatus newStatus = some s →
        st.bookings.find? (fun b => b.id == bookingId) = none →
        updateBookingStatus st bookingId newStatus = (.error .notFoundErr, st))
    ∧ (∀ s b, parseStatus newStatus = some s →
        st.bookings.find? (fun b => b.id == bookingId) = some b →
        (updateBookingStatus st bookingId newStatus).1 = .ok { b with status := s }) := by
  refine ⟨fun h => ?_, fun s hs hf => ?_, fun s b hs hf => ?_⟩
  · unfold updateBookingStatus
    rw [h]
  · unfold updateBookingStatus
    rw [hs, hf]
  · unfold updateBookingStatus
    rw [hs, hf]

/-- Booking used by the update-status witness: currently `completed`. -/
def updateWitnessBooking : Booking :=
  { id := 7
    roomId := 1
    roomName := "Standard Room"
    guestName := "Jane Smith"
    checkInMs := 0
    checkOutMs := msPerDay
    guests := 1
    totalCents := 10000
    bookingDateMs := 0
    status := .completed
    userEmail := none }

/-- Store holding only the update-status witness booking. -/
def updateWitnessStore : Store := { rooms := [], bookings := [updateWitnessBooking] }

theorem c4_update_booking_status_witness :
    (updateBookingStatus updateWitnessStore 7 "pending").1
      = .ok { updateWitnessBooking with status := .pending } :=
  (c4_update_booking_status updateWitnessStore 7 "pending").2.2 .pending
    updateWitnessBooking rfl (by decide)

/-- A booking whose guest, room and email all miss the term `alice`. -/
def bobBooking : Booking :=
  { id := 3
    roomId := 2
    roomName := "Executive Business Room"
    guestName := "Bob"
    checkInMs := 0
    checkOutMs := msPerDay
    guests := 1
    totalCents := 18999
    bookingDateMs := 0
    status := .confirmed
    userEmail := some "bob@example.com" }

/-- C5 as stated is false: the free-text filter is not applied in the data
layer.  The query `fetchBookings` sends is independent of the search term,
so a record matching nothing (`bobBooking` against the term `alice`) is
still shipped to the client, and only the presentation-layer filter
removes it from the rendered rows. -/
theorem c5_search_counterexample :
    fetchBookingsQuery "all" "alice" = fetchBookingsQuery "all" ""
      ∧ bobBooking ∈ shippedToClient "all" "alice" [bobBooking]
      ∧ matchesSearch "alice" bobBooking = false
      ∧ displayedBookings "all" "alice" [bobBooking] = [] := by
  refine ⟨rfl, ?_, by decide, by decide⟩
  show bobBooking ∈ [bobBooking]
  exact List.mem_singleton.mpr rfl

/-- C5 amended: the free-text filter runs in the presentation layer over
the page the data layer shipped (the data-layer query carries only skip,
limit and status); a record is rendered iff it was shipped and its guest
name, room name, or user email contains the search term
case-insensitively. -/
theorem c5_search_filter (filterStatus searchTerm : String) (db : List Booking)
    (b : Booking) :
    b ∈ displayedBookings filterStatus searchTerm db ↔
      b ∈ shippedToClient filterStatus searchTerm db
        ∧ (hasSubCI b.guestName searchTerm = true
           ∨ hasSubCI b.roomName searchTerm = true
           ∨ ∃ e, b.userEmail = some e ∧ hasSubCI e searchTerm = true) := by
  unfold displayedBookings filteredBookings
  rw [List.mem_filter]
  constructor
  · rintro ⟨hm, hmat⟩
    refine ⟨hm, ?_⟩
    unfold matchesSearch at hmat
    cases he : b.userEmail with
    | none =>
      rw [he] at hmat
      simp only [Bool.or_false, Bool.or_eq_true] at hmat
      rcases hmat with h | h
      · exact Or.inl h
      · exact Or.inr (Or.inl h)
    | some e =>
      rw [he] at hmat
      simp only [Bool.or_eq_true] at hmat
      rcases hmat with (h | h) | h
      · exact Or.inl h
      · exact Or.inr (Or.inl h)
      · exact Or.inr (Or.inr ⟨e, rfl, h⟩)
  · rintro ⟨hm, hmat⟩
    refine ⟨hm, ?_⟩
    unfold matchesSearch
    rcases hmat with h | h | ⟨e, he, h⟩
    · simp [h]
    · simp [h]
    · simp [he, h]

/-- C6: a request to the admin stats endpoint with a live token whose role
is not admin fails with `AuthorizationError` (HTTP 403) and returns no
data, and the admin panel shows the access-denied view (no admin view, no
admin data fetch) whenever the user is unauthenticated or not an admin. -/
theorem c6_admin_gate (isAuthenticated : Bool) (role : Option String)
    (tok : Token) (nowMs : Nat) (stats : Stats)
    (hFrontend : isAuthenticated = false ∨ role ≠ some "admin")
    (hLive : nowMs < tok.expMs) (hRole : tok.role ≠ "admin") :
    adminPanelView isAuthenticated role = .accessDenied
      ∧ viewFetches (adminPanelView isAuthenticated role) = []
      ∧ getAdminStats (some tok) nowMs stats = .error .forbiddenErr
      ∧ statusOf .forbiddenErr = 403 := by
  have hview : adminPanelView isAuthenticated role = .accessDenied := by
    unfold adminPanelView
    rcases hFrontend with h | h
    · subst h
      rfl
    · have : (role != some "admin") = true := bne_iff_ne.mpr h
      rw [this, Bool.or_true]
      rfl
  have hstats : getAdminStats (some tok) nowMs stats = .error .forbiddenErr := by
    unfold getAdminStats authorize
    have hrole : (tok.role == "admin") = false := beq_eq_false_iff_ne.mpr hRole
    have hexp : ¬ (tok.expMs ≤ nowMs) := by omega
    simp only [hrole, if_neg hexp]
    rfl
  exact ⟨hview, by rw [hview]; rfl, hstats, rfl⟩

theorem c6_admin_gate_witness :
    adminPanelView false none = .accessDenied
      ∧ viewFetches (adminPanelView false none) = []
      ∧ getAdminStats (some (Token.mk 2 "bob@example.com" "user" 1000)) 0
          (Stats.mk (BookingStats.mk 0 0 0)) = .error .forbiddenErr
      ∧ statusOf .forbiddenErr = 403 :=
  c6_admin_gate false none _ 0 _ (Or.inl rfl) (by decide) (by decide)

/-- C7: authenticating with a registered email and a wrong password fails
with exactly the same error value — same generic message, same 401
status — as authenticating with an email that does not exist, so the
response does not reveal whether the email is registered. -/
theorem c7_auth_no_enumeration (verify : String → String → Bool)
    (db : List User) (u : User) (wrongPw otherEmail otherPw : String)
    (nowMs expiryMs : Nat)
    (hu : lookupUser db u.email = some u)
    (hv : verify wrongPw u.passwordHash = false)
    (hne : lookupUser db otherEmail = none) :
    authenticate verify db u.email wrongPw nowMs expiryMs
        = authenticate verify db otherEmail otherPw nowMs expiryMs
      ∧ authenticate verify db u.email wrongPw nowMs expiryMs
        = .error (.authFailure "Invalid credentials")
      ∧ statusOf (.authFailure "Invalid credentials") = 401 := by
  have h1 : authenticate verify db u.email wrongPw nowMs expiryMs
      = .error (.authFailure "Invalid credentials") := by
    unfold authenticate
    rw [hu]
    simp only [hv]
    rfl
  have h2 : authenticate verify db otherEmail otherPw nowMs expiryMs
      = .error (.authFailure "Invalid credentials") := by
    unfold authenticate
    rw [hne]
  exact ⟨h1.trans h2.symm, h1, rfl⟩

/-- Registered user of the enumeration witness. -/
def aliceUser : User :=
  { id := 1
    email := "Alice@Example.com"
    passwordHash := "secret-hash"
    fullName := "Alice"
    role := "user"
    isActive := true }

theorem c7_auth_no_enumeration_witness :
    authenticate (fun p h => p == h) [aliceUser] aliceUser.email "wrong-pw" 0 3600000
      = authenticate (fun p h => p == h) [aliceUser] "carol@example.com" "any" 0 3600000 :=
  (c7_auth_no_enumeration (fun p h => p == h) [aliceUser] aliceUser
    "wrong-pw" "carol@example.com" "any" 0 3600000
    (by decide) (by decide) (by decide)).1

/-- C8: the dashboard confirmation rate is computed as
`round((confirmed / total) × 100)` only under the guard `total > 0` and
displays `0` when stats are absent or there are no bookings; under the
guard it agrees with an integer formula that never divides by zero. -/
theorem c8_booking_rate_guard (s : Stats) (h : 0 < s.bookings.total) :
    bookingRateDisplay none = 0
      ∧ (∀ s' : Stats, s'.bookings.total = 0 → bookingRateDisplay (some s') = 0)
      ∧ bookingRateDisplay (some s)
          = round (((s.bookings.confirmed : ℚ) / (s.bookings.total : ℚ)) * 100)
      ∧ bookingRateDisplay (some s)
          = ((200 * s.bookings.confirmed + s.bookings.total)
              / (2 * s.bookings.total) : ℕ) := by
  refine ⟨rfl, fun s' hz => ?_, ?_, ?_⟩
  · unfold bookingRateDisplay
    dsimp only
    rw [hz, if_neg (lt_irrefl 0)]
  · unfold bookingRateDisplay
    dsimp only
    rw [if_pos h]
  · unfold bookingRateDisplay
    dsimp only
    rw [if_pos h, round_rate_eq _ _ h]

theorem c8_booking_rate_guard_witness :
    bookingRateDisplay (some (Stats.mk (BookingStats.mk 7 3 1)))
      = ((200 * 3 + 7) / (2 * 7) : ℕ) :=
  (c8_booking_rate_guard (Stats.mk (BookingStats.mk 7 3 1)) (by decide)).2.2.2

/-- C9: the admin role toggle maps `admin` to `user` and every other role
to `admin`, and on the two-role set `{user, admin}` applying it twice
gives back the original role. -/
theorem c9_role_toggle (r : String) (h : r = "user" ∨ r = "admin") :
    handleToggleRole "admin" = "user"
      ∧ (r ≠ "admin" → handleToggleRole r = "admin")
      ∧ handleToggleRole (handleToggleRole r) = r := by
  rcases h with h | h <;> subst h
  · exact ⟨by decide, fun _ => by decide, by decide⟩
  · exact ⟨by decide, fun hne => absurd rfl hne, by decide⟩

theorem c9_role_toggle_witness :
    handleToggleRole (handleToggleRole "user") = "user" :=
  (c9_role_toggle "user" (Or.inl rfl)).2.2

/-- C10: submitting a blank (empty or whitespace-only) guest name fetches
the full bookings list, while a non-blank name queries the guest-filter
endpoint with the name URL-encoded. -/
theorem c10_guest_search (searchName : String) :
    (searchName.data.all Char.isWhitespace = true →
        handleSearch searchName = getAllBookingsUrl)
      ∧ (searchName.data.all Char.isWhitespace = false →
        handleSearch searchName
          = "http://localhost:8000/api/bookings/guest/"
            ++ encodeURIComponent searchName) := by
  constructor
  · intro h
    unfold handleSearch
    have : (jsTrim searchName == "") = true :=
      beq_iff_eq.mpr ((jsTrim_eq_empty_iff searchName).mpr h)
    rw [if_pos this]
  · intro h
    unfold handleSearch getBookingsByGuestUrl
    rw [if_neg]
    intro hc
    have hall := (jsTrim_eq_empty_iff searchName).mp (beq_iff_eq.mp hc)
    rw [hall] at h
    cases h

theorem c10_guest_search_witness :
    handleSearch "John Smith"
      = "http://localhost:8000/api/bookings/guest/John%20Smith" := by
  have h := (c10_guest_search "John Smith").2 (by decide)
  rw [h]
  decide
